import Mathlib

/-!
Verification development for the l1-geometry-viz repository.

The repository's algorithmic core is a small set of pure numeric mappings:

* `computeGlyphGeometry`, `computeGlyphArea`, `classifyGlyphShape` from
  `src/lib/glyph-geometry.ts` — pentadic profile → rendering attributes
  and a shape label;
* `getContribution` and the `invariantPentadicMap` table from
  `src/data/mappings/invariantPentadicMap.ts`;
* the max-based per-dimension aggregation of `PentadicPathway` in
  `src/components/drilldown/SubscorePanel.tsx`;
* the three synthetic time-series generators in
  `src/data/synthetic/systems.ts`.

JavaScript numbers are embedded as `ℚ` for the exact linear arithmetic of
the geometry layer (all constants are decimal literals, so rationals are
exact) and as `ℝ` for the generators, which use `Math.exp`.  `Math.random`
is modelled as an arbitrary stream `r : ℕ → ℝ`, indexed positionally by
day and field.
-/

namespace L1Viz

/-- The pentadic profile record from `src/data/synthetic/types`:
five scalar fields `u`, `severity`, `scope`, `correlation`, `containment`.
Parametrised by the number type (`ℚ` for the geometry layer, `ℝ` for the
generators). -/
structure PentadicProfile (α : Type) where
  u : α
  severity : α
  scope : α
  correlation : α
  containment : α
deriving Repr, DecidableEq

/-- The invariant profile record from `src/data/synthetic/types`. -/
structure InvariantProfile (α : Type) where
  redundancy : α
  connectivityDensity : α
  feedbackLatency : α
  regenerationRate : α
  dependencyConcentration : α
deriving Repr, DecidableEq

/-- `GlyphConfig` from `src/lib/glyph-geometry.ts`. -/
structure GlyphConfig where
  maxHeight : ℚ
  minHeight : ℚ
  maxWidth : ℚ
  minWidth : ℚ
  maxGlowBlur : ℚ
  pulseThreshold : ℚ
deriving Repr, DecidableEq

/-- `defaultConfig` from `src/lib/glyph-geometry.ts`. -/
def defaultConfig : GlyphConfig :=
  ⟨160, 40, 120, 30, 30, 0.6⟩

/-- `Partial<GlyphConfig>`: each field optionally overridden; the spread
`{ ...defaultConfig, ...config }` fills missing fields from the default. -/
structure GlyphConfigOverrides where
  maxHeight? : Option ℚ
  minHeight? : Option ℚ
  maxWidth? : Option ℚ
  minWidth? : Option ℚ
  maxGlowBlur? : Option ℚ
  pulseThreshold? : Option ℚ
deriving Repr, DecidableEq

/-- The empty override object `{}` (the default argument of
`computeGlyphGeometry`). -/
def noOverrides : GlyphConfigOverrides :=
  ⟨none, none, none, none, none, none⟩

/-- The object spread `{ ...defaultConfig, ...config }`. -/
def resolveConfig (config : GlyphConfigOverrides) : GlyphConfig :=
  ⟨config.maxHeight?.getD defaultConfig.maxHeight,
   config.minHeight?.getD defaultConfig.minHeight,
   config.maxWidth?.getD defaultConfig.maxWidth,
   config.minWidth?.getD defaultConfig.minWidth,
   config.maxGlowBlur?.getD defaultConfig.maxGlowBlur,
   config.pulseThreshold?.getD defaultConfig.pulseThreshold⟩

/-- JavaScript `Math.round`: round half up, i.e. `⌊x + 1/2⌋`. -/
def jsRound (q : ℚ) : ℤ := ⌊q + 1/2⌋

/-- `interpolateContainmentColor` from `src/lib/glyph-geometry.ts`, as the
RGB triple inside the produced `rgb(r, g, b)` string. -/
def interpolateContainmentColor (containment : ℚ) : ℤ × ℤ × ℤ :=
  (jsRound (15 + containment * (45 - 15)),
   jsRound (31 + containment * (90 - 31)),
   jsRound (53 + containment * (135 - 53)))

/-- `interpolateGlowColor` from `src/lib/glyph-geometry.ts`: an RGB triple
plus the alpha channel (`correlation * 2` in the low branch, `1` for the
opaque `rgb(...)` strings of the other branches). -/
def interpolateGlowColor (correlation : ℚ) : (ℤ × ℤ × ℤ) × ℚ :=
  if correlation < 0.3 then
    ((212, 165, 116), correlation * 2)
  else if correlation < 0.7 then
    let t := (correlation - 0.3) / 0.4
    ((jsRound (212 + t * (224 - 212)),
      jsRound (165 - t * (165 - 112)),
      jsRound (116 - t * (116 - 32))), 1)
  else
    let t := (correlation - 0.7) / 0.3
    ((jsRound (224 - t * (224 - 192)),
      jsRound (112 - t * (112 - 64)),
      jsRound 32), 1)

/-- `GlyphGeometry` from `src/lib/glyph-geometry.ts` (colors as numeric
channels rather than CSS strings). -/
structure GlyphGeometry where
  xPosition : ℚ
  height : ℚ
  width : ℚ
  fillOpacity : ℚ
  fillColor : ℤ × ℤ × ℤ
  glowBlur : ℚ
  glowSpread : ℚ
  glowOpacity : ℚ
  glowColor : (ℤ × ℤ × ℤ) × ℚ
  shouldPulse : Bool
deriving Repr, DecidableEq

/-- `computeGlyphGeometry` from `src/lib/glyph-geometry.ts`. -/
def computeGlyphGeometry (profile : PentadicProfile ℚ)
    (config : GlyphConfigOverrides) : GlyphGeometry :=
  let cfg := resolveConfig config
  ⟨profile.u,
   cfg.minHeight + profile.severity * (cfg.maxHeight - cfg.minHeight),
   cfg.minWidth + profile.scope * (cfg.maxWidth - cfg.minWidth),
   0.2 + profile.containment * 0.7,
   interpolateContainmentColor profile.containment,
   profile.correlation * cfg.maxGlowBlur,
   profile.correlation * 10,
   profile.correlation * 0.8,
   interpolateGlowColor profile.correlation,
   decide (profile.correlation ≥ cfg.pulseThreshold)⟩

/-- `computeGlyphArea` from `src/lib/glyph-geometry.ts`. -/
def computeGlyphArea (profile : PentadicProfile ℚ) : ℚ :=
  profile.severity * profile.scope

/-- The `GlyphShape` union type. -/
inductive GlyphShape where
  | tallNarrow
  | shortWide
  | square
  | compact
  | large
deriving Repr, DecidableEq

/-- `classifyGlyphShape` from `src/lib/glyph-geometry.ts`.  Rational
division by zero yields `0` in Lean; the `aspectRatio` branches are only
reached when `area ≥ 0.15`, which forces `scope ≠ 0`, so the convention
never matters on the reachable paths. -/
def classifyGlyphShape (profile : PentadicProfile ℚ) : GlyphShape :=
  let aspectRatio := profile.severity / profile.scope
  let area := computeGlyphArea profile
  if area < 0.15 then .compact
  else if area > 0.5 then .large
  else if aspectRatio > 1.5 then .tallNarrow
  else if aspectRatio < 0.67 then .shortWide
  else .square

/-- Modelled from the spec's words (§4.1): the five-way classification
with area thresholds checked before aspect-ratio thresholds.  Used to
compare the spec's description against `classifyGlyphShape`. -/
def classifyGlyphShapeSpec (profile : PentadicProfile ℚ) : GlyphShape :=
  if profile.severity * profile.scope < 0.15 then .compact
  else if profile.severity * profile.scope > 0.5 then .large
  else if profile.severity / profile.scope > 1.5 then .tallNarrow
  else if profile.severity / profile.scope < 0.67 then .shortWide
  else .square

/-- `x` lies in the closed unit interval. -/
def InRange01 (x : ℚ) : Prop := 0 ≤ x ∧ x ≤ 1

/-- The base profile of system α (`src/data/synthetic/systems.ts`),
used by the spec's end-to-end scenario. -/
def alphaScenarioProfile : PentadicProfile ℚ :=
  ⟨0.25, 0.20, 0.40, 0.15, 0.85⟩

/-- C1: for the profile {u:0.25, severity:0.20, scope:0.40,
correlation:0.15, containment:0.85} and the default configuration (no
overrides supplied), `computeGlyphGeometry` returns height = 64,
width = 66, fillOpacity = 0.795, glowBlur = 4.5, shouldPulse = false. -/
theorem computeGlyphGeometry_alphaScenario :
    (computeGlyphGeometry alphaScenarioProfile noOverrides).height = 64 ∧
    (computeGlyphGeometry alphaScenarioProfile noOverrides).width = 66 ∧
    (computeGlyphGeometry alphaScenarioProfile noOverrides).fillOpacity = 0.795 ∧
    (computeGlyphGeometry alphaScenarioProfile noOverrides).glowBlur = 4.5 ∧
    (computeGlyphGeometry alphaScenarioProfile noOverrides).shouldPulse = false := by
  refine ⟨?_, ?_, ?_, ?_, ?_⟩ <;>
    norm_num [computeGlyphGeometry, resolveConfig, noOverrides, defaultConfig,
      alphaScenarioProfile, decide_eq_false_iff_not]

/-- C2: on profiles with severity and scope in [0,1], `classifyGlyphShape`
agrees with the spec's five-way decision tree (area thresholds before
aspect-ratio thresholds); severity = scope = 0.9 classifies as large, and
severity = scope = 0.4 does not classify as compact. -/
theorem classifyGlyphShape_matchesSpec :
    (∀ p : PentadicProfile ℚ, InRange01 p.severity → InRange01 p.scope →
        classifyGlyphShape p = classifyGlyphShapeSpec p) ∧
    classifyGlyphShape ⟨0, 0.9, 0.9, 0, 0⟩ = GlyphShape.large ∧
    classifyGlyphShape ⟨0, 0.4, 0.4, 0, 0⟩ ≠ GlyphShape.compact := by
  refine ⟨fun p _ _ => rfl,
    by norm_num [classifyGlyphShape, computeGlyphArea],
    by norm_num [classifyGlyphShape, computeGlyphArea]; decide⟩

/-- Witness for C2 at a concrete in-range profile. -/
theorem classifyGlyphShape_matchesSpec_witness :
    classifyGlyphShape ⟨0, 0.3, 0.5, 0, 0⟩ = classifyGlyphShapeSpec ⟨0, 0.3, 0.5, 0, 0⟩ :=
  classifyGlyphShape_matchesSpec.1 ⟨0, 0.3, 0.5, 0, 0⟩
    (by norm_num [InRange01]) (by norm_num [InRange01])

/-- Replace only the containment field of a profile (for "all other inputs
held fixed" statements). -/
def setContainment (p : PentadicProfile ℚ) (c : ℚ) : PentadicProfile ℚ :=
  ⟨p.u, p.severity, p.scope, p.correlation, c⟩

/-- Replace only the correlation field of a profile. -/
def setCorrelation (p : PentadicProfile ℚ) (c : ℚ) : PentadicProfile ℚ :=
  ⟨p.u, p.severity, p.scope, c, p.containment⟩

/-- C5: under the default configuration, for profiles with all fields in
[0,1], height lies in [minHeight, maxHeight] and width in
[minWidth, maxWidth], with equality at the severity/scope extremes. -/
theorem height_width_bounds (p : PentadicProfile ℚ)
    (_hu : InRange01 p.u) (hsev : InRange01 p.severity) (hsc : InRange01 p.scope)
    (_hcor : InRange01 p.correlation) (_hcon : InRange01 p.containment) :
    (defaultConfig.minHeight ≤ (computeGlyphGeometry p noOverrides).height ∧
      (computeGlyphGeometry p noOverrides).height ≤ defaultConfig.maxHeight) ∧
    (defaultConfig.minWidth ≤ (computeGlyphGeometry p noOverrides).width ∧
      (computeGlyphGeometry p noOverrides).width ≤ defaultConfig.maxWidth) ∧
    (p.severity = 0 → (computeGlyphGeometry p noOverrides).height = defaultConfig.minHeight) ∧
    (p.severity = 1 → (computeGlyphGeometry p noOverrides).height = defaultConfig.maxHeight) ∧
    (p.scope = 0 → (computeGlyphGeometry p noOverrides).width = defaultConfig.minWidth) ∧
    (p.scope = 1 → (computeGlyphGeometry p noOverrides).width = defaultConfig.maxWidth) := by
  obtain ⟨hs0, hs1⟩ := hsev
  obtain ⟨hc0, hc1⟩ := hsc
  have hh : (computeGlyphGeometry p noOverrides).height = 40 + p.severity * (160 - 40) := rfl
  have hw : (computeGlyphGeometry p noOverrides).width = 30 + p.scope * (120 - 30) := rfl
  have hmh : defaultConfig.minHeight = 40 := rfl
  have hMh : defaultConfig.maxHeight = 160 := rfl
  have hmw : defaultConfig.minWidth = 30 := rfl
  have hMw : defaultConfig.maxWidth = 120 := rfl
  rw [hh, hw, hmh, hMh, hmw, hMw]
  refine ⟨⟨by nlinarith, by nlinarith⟩, ⟨by nlinarith, by nlinarith⟩,
    ?_, ?_, ?_, ?_⟩ <;> intro h <;> rw [h] <;> norm_num

/-- Witness for C5 at the all-zero profile. -/
theorem height_width_bounds_witness :
    (computeGlyphGeometry ⟨0, 0, 0, 0, 0⟩ noOverrides).height = defaultConfig.minHeight :=
  (height_width_bounds ⟨0, 0, 0, 0, 0⟩
    (by norm_num [InRange01]) (by norm_num [InRange01]) (by norm_num [InRange01])
    (by norm_num [InRange01]) (by norm_num [InRange01])).2.2.1 rfl

/-- C6: `fillOpacity` is monotonically non-decreasing in containment
(other inputs fixed, any configuration), and lies in [0.2, 0.9] whenever
containment is in [0,1]. -/
theorem fillOpacity_monotone_bounded :
    (∀ (p : PentadicProfile ℚ) (cfg : GlyphConfigOverrides) (c c' : ℚ), c ≤ c' →
        (computeGlyphGeometry (setContainment p c) cfg).fillOpacity ≤
          (computeGlyphGeometry (setContainment p c') cfg).fillOpacity) ∧
    (∀ (p : PentadicProfile ℚ) (cfg : GlyphConfigOverrides), InRange01 p.containment →
        0.2 ≤ (computeGlyphGeometry p cfg).fillOpacity ∧
          (computeGlyphGeometry p cfg).fillOpacity ≤ 0.9) := by
  constructor
  · intro p cfg c c' hle
    have h1 : (computeGlyphGeometry (setContainment p c) cfg).fillOpacity
        = 0.2 + c * 0.7 := rfl
    have h2 : (computeGlyphGeometry (setContainment p c') cfg).fillOpacity
        = 0.2 + c' * 0.7 := rfl
    rw [h1, h2]
    nlinarith
  · intro p cfg hc
    obtain ⟨hc0, hc1⟩ := hc
    have h1 : (computeGlyphGeometry p cfg).fillOpacity
        = 0.2 + p.containment * 0.7 := rfl
    rw [h1]
    constructor <;> nlinarith

/-- Witness for C6 at a concrete profile and containment pair. -/
theorem fillOpacity_monotone_bounded_witness :
    (computeGlyphGeometry (setContainment ⟨0, 0, 0, 0, 0⟩ 0.1) noOverrides).fillOpacity ≤
      (computeGlyphGeometry (setContainment ⟨0, 0, 0, 0, 0⟩ 0.4) noOverrides).fillOpacity :=
  fillOpacity_monotone_bounded.1 ⟨0, 0, 0, 0, 0⟩ noOverrides 0.1 0.4 (by norm_num)

/-- C7: under the default configuration, `glowBlur`, `glowSpread` and
`glowOpacity` are monotonically non-decreasing in correlation (other
inputs fixed), and all three are zero when correlation is zero. -/
theorem glow_monotone_zero :
    (∀ (p : PentadicProfile ℚ) (c c' : ℚ), c ≤ c' →
        (computeGlyphGeometry (setCorrelation p c) noOverrides).glowBlur ≤
            (computeGlyphGeometry (setCorrelation p c') noOverrides).glowBlur ∧
          (computeGlyphGeometry (setCorrelation p c) noOverrides).glowSpread ≤
            (computeGlyphGeometry (setCorrelation p c') noOverrides).glowSpread ∧
          (computeGlyphGeometry (setCorrelation p c) noOverrides).glowOpacity ≤
            (computeGlyphGeometry (setCorrelation p c') noOverrides).glowOpacity) ∧
    (∀ p : PentadicProfile ℚ, p.correlation = 0 →
        (computeGlyphGeometry p noOverrides).glowBlur = 0 ∧
          (computeGlyphGeometry p noOverrides).glowSpread = 0 ∧
          (computeGlyphGeometry p noOverrides).glowOpacity = 0) := by
  constructor
  · intro p c c' hle
    have hb : ∀ x : ℚ, (computeGlyphGeometry (setCorrelation p x) noOverrides).glowBlur
        = x * 30 := fun x => rfl
    have hs : ∀ x : ℚ, (computeGlyphGeometry (setCorrelation p x) noOverrides).glowSpread
        = x * 10 := fun x => rfl
    have ho : ∀ x : ℚ, (computeGlyphGeometry (setCorrelation p x) noOverrides).glowOpacity
        = x * 0.8 := fun x => rfl
    rw [hb, hb, hs, hs, ho, ho]
    refine ⟨by nlinarith, by nlinarith, by nlinarith⟩
  · intro p h0
    have hb : (computeGlyphGeometry p noOverrides).glowBlur
        = p.correlation * 30 := rfl
    have hs : (computeGlyphGeometry p noOverrides).glowSpread
        = p.correlation * 10 := rfl
    have ho : (computeGlyphGeometry p noOverrides).glowOpacity
        = p.correlation * 0.8 := rfl
    rw [hb, hs, ho, h0]
    norm_num

/-- Witness for C7: monotonicity at a concrete correlation pair. -/
theorem glow_monotone_zero_witness :
    (computeGlyphGeometry (setCorrelation ⟨0, 0, 0, 0, 0⟩ 0.2) noOverrides).glowBlur ≤
      (computeGlyphGeometry (setCorrelation ⟨0, 0, 0, 0, 0⟩ 0.9) noOverrides).glowBlur :=
  ((glow_monotone_zero.1 ⟨0, 0, 0, 0, 0⟩ 0.2 0.9 (by norm_num)).1)

/-- C8: for every profile and configuration, `shouldPulse` is true iff
correlation ≥ the effective pulse threshold; in particular the boundary
case correlation = pulseThreshold yields true. -/
theorem shouldPulse_iff_threshold (p : PentadicProfile ℚ) (cfg : GlyphConfigOverrides) :
    ((computeGlyphGeometry p cfg).shouldPulse = true ↔
      p.correlation ≥ (resolveConfig cfg).pulseThreshold) ∧
    (p.correlation = (resolveConfig cfg).pulseThreshold →
      (computeGlyphGeometry p cfg).shouldPulse = true) := by
  have h : (computeGlyphGeometry p cfg).shouldPulse
      = decide (p.correlation ≥ (resolveConfig cfg).pulseThreshold) := rfl
  constructor
  · rw [h]
    exact decide_eq_true_iff
  · intro heq
    rw [h, heq]
    simp

/-- Witness for C8 at the boundary correlation = default pulseThreshold. -/
theorem shouldPulse_iff_threshold_witness :
    (computeGlyphGeometry ⟨0, 0, 0, 0.6, 0⟩ noOverrides).shouldPulse = true :=
  (shouldPulse_iff_threshold ⟨0, 0, 0, 0.6, 0⟩ noOverrides).2 rfl

/-- C10: `classifyGlyphShape` is total; at scope = 0 the area
severity * scope is 0 < 0.15, the first check fires, and the result is
compact for every severity (the unguarded aspect-ratio division never
influences the label). -/
theorem classifyGlyphShape_scope_zero (u sev corr cont : ℚ) :
    classifyGlyphShape ⟨u, sev, 0, corr, cont⟩ = GlyphShape.compact := by
  norm_num [classifyGlyphShape, computeGlyphArea]

/-- The `Invariant` union type from
`src/data/mappings/invariantPentadicMap.ts`. -/
inductive Invariant where
  | redundancy
  | connectivityDensity
  | feedbackLatency
  | regenerationRate
  | dependencyConcentration
deriving Repr, DecidableEq, Fintype

/-- The `PentadicDimension` union type. -/
inductive PentadicDimension where
  | uncertainty
  | severity
  | scope
  | correlation
  | containment
deriving Repr, DecidableEq, Fintype

/-- The `ContributionStrength` union type. -/
inductive ContributionStrength where
  | high
  | moderate
  | low
deriving Repr, DecidableEq, Fintype

/-- `contributionValues`: high ↦ 0.8, moderate ↦ 0.5, low ↦ 0.2. -/
def contributionValues : ContributionStrength → ℚ
  | .high => 0.8
  | .moderate => 0.5
  | .low => 0.2

/-- `invariantPentadicMap`: the fixed many-to-many strength table, one
strength per (invariant, dimension) pair. -/
def invariantPentadicMap : Invariant → PentadicDimension → ContributionStrength
  | .redundancy, .uncertainty => .moderate
  | .redundancy, .severity => .high
  | .redundancy, .scope => .high
  | .redundancy, .correlation => .low
  | .redundancy, .containment => .high
  | .connectivityDensity, .uncertainty => .high
  | .connectivityDensity, .severity => .moderate
  | .connectivityDensity, .scope => .high
  | .connectivityDensity, .correlation => .high
  | .connectivityDensity, .containment => .high
  | .feedbackLatency, .uncertainty => .low
  | .feedbackLatency, .severity => .low
  | .feedbackLatency, .scope => .low
  | .feedbackLatency, .correlation => .low
  | .feedbackLatency, .containment => .high
  | .regenerationRate, .uncertainty => .low
  | .regenerationRate, .severity => .moderate
  | .regenerationRate, .scope => .low
  | .regenerationRate, .correlation => .low
  | .regenerationRate, .containment => .high
  | .dependencyConcentration, .uncertainty => .high
  | .dependencyConcentration, .severity => .high
  | .dependencyConcentration, .scope => .moderate
  | .dependencyConcentration, .correlation => .high
  | .dependencyConcentration, .containment => .high

/-- `getContribution` from `src/data/mappings/invariantPentadicMap.ts`. -/
def getContribution (invariant : Invariant) (dimension : PentadicDimension) : ℚ :=
  contributionValues (invariantPentadicMap invariant dimension)

/-- `getInvariantContributions`: the per-dimension view of the table. -/
def getInvariantContributions (dimension : PentadicDimension) : Invariant → ℚ :=
  fun inv => getContribution inv dimension

/-- C3: `getContribution` is total on the 5 × 5 closed pairs (by type, in
this embedding) and every returned value is one of exactly
{0.2, 0.5, 0.8}, each of which is attained. -/
theorem getContribution_total_range :
    (∀ (i : Invariant) (d : PentadicDimension),
        getContribution i d = 0.2 ∨ getContribution i d = 0.5 ∨ getContribution i d = 0.8) ∧
    (∃ i d, getContribution i d = 0.2) ∧
    (∃ i d, getContribution i d = 0.5) ∧
    (∃ i d, getContribution i d = 0.8) := by
  refine ⟨fun i d => ?_, ⟨.redundancy, .correlation, ?_⟩,
    ⟨.redundancy, .uncertainty, ?_⟩, ⟨.redundancy, .severity, ?_⟩⟩
  · cases i <;> cases d <;> simp [getContribution, invariantPentadicMap, contributionValues]
  all_goals rfl

/-- The per-dimension aggregation of `PentadicPathway` in
`src/components/drilldown/SubscorePanel.tsx`: starting from 0, fold the
subscore's invariants with `Math.max` over the strength of each. -/
def aggregatedContribution (invs : List Invariant) (dim : PentadicDimension) : ℚ :=
  invs.foldl (fun acc inv => max acc (contributionValues (invariantPentadicMap inv dim))) 0

/-- Every contribution strength is at least 0.2. -/
theorem contribution_ge (i : Invariant) (d : PentadicDimension) :
    0.2 ≤ getContribution i d := by
  cases i <;> cases d <;> norm_num [getContribution, invariantPentadicMap, contributionValues]

/-- A left fold by `max` lands in the initial value or the list. -/
theorem foldl_max_mem_cons (l : List ℚ) (a : ℚ) : l.foldl max a ∈ a :: l := by
  induction l generalizing a with
  | nil => simp
  | cons x xs ih =>
    have h := ih (max a x)
    simp only [List.foldl_cons]
    rcases List.mem_cons.mp h with h1 | h1
    · rcases max_choice a x with h2 | h2
      · rw [h1, h2]; simp
      · rw [h1, h2]; simp
    · simp [List.mem_cons, h1]

/-- A left fold by `max` bounds the initial value and every element. -/
theorem le_foldl_max (l : List ℚ) (a : ℚ) :
    a ≤ l.foldl max a ∧ ∀ x ∈ l, x ≤ l.foldl max a := by
  induction l generalizing a with
  | nil => simp
  | cons y ys ih =>
    simp only [List.foldl_cons]
    obtain ⟨h1, h2⟩ := ih (max a y)
    refine ⟨le_trans (le_max_left a y) h1, ?_⟩
    intro x hx
    rcases List.mem_cons.mp hx with hx | hx
    · rw [hx]; exact le_trans (le_max_right a y) h1
    · exact h2 x hx

/-- C4: for every non-empty invariant list and every dimension, the UI's
aggregated contribution is exactly the maximum of `getContribution` over
the invariants in the list. -/
theorem aggregatedContribution_eq_maximum (invs : List Invariant)
    (dim : PentadicDimension) (h : invs ≠ []) :
    (invs.map (fun inv => getContribution inv dim)).maximum
      = (aggregatedContribution invs dim : WithBot ℚ) := by
  have hfold : aggregatedContribution invs dim
      = (invs.map (fun inv => getContribution inv dim)).foldl max 0 := by
    rw [List.foldl_map]
    rfl
  obtain ⟨i0, rest, rfl⟩ := List.exists_cons_of_ne_nil h
  set L := ((i0 :: rest).map (fun inv => getContribution inv dim)) with hL
  have hmem : aggregatedContribution (i0 :: rest) dim ∈ (0 : ℚ) :: L := by
    rw [hfold]; exact foldl_max_mem_cons L 0
  have hbd := le_foldl_max L 0
  have hhead : getContribution i0 dim ≤ aggregatedContribution (i0 :: rest) dim := by
    rw [hfold]
    exact hbd.2 _ (by simp [hL])
  have hpos : (0.2 : ℚ) ≤ aggregatedContribution (i0 :: rest) dim :=
    le_trans (contribution_ge i0 dim) hhead
  have hmemL : aggregatedContribution (i0 :: rest) dim ∈ L := by
    rcases List.mem_cons.mp hmem with h0 | h0
    · exfalso; rw [h0] at hpos; norm_num at hpos
    · exact h0
  rw [List.maximum_eq_coe_iff]
  refine ⟨hmemL, ?_⟩
  intro b hb
  rw [hfold]
  exact (le_foldl_max L 0).2 b hb

/-- Witness for C4 on a concrete two-invariant list. -/
theorem aggregatedContribution_eq_maximum_witness :
    (([Invariant.redundancy, Invariant.feedbackLatency].map
        (fun inv => getContribution inv PentadicDimension.severity)).maximum
      = (aggregatedContribution [Invariant.redundancy, Invariant.feedbackLatency]
          PentadicDimension.severity : WithBot ℚ)) :=
  aggregatedContribution_eq_maximum _ _ (by simp)

/-! ### Synthetic time-series generators (`src/data/synthetic/systems.ts`)

`Math.random` is modelled as an arbitrary stream `r : ℕ → ℝ`; the draw
for field `k` of day `d` is read at position `10 * d + k` (five pentadic
fields then five invariant fields per day).  The bounds below hold for
every stream, so the positional indexing carries no proof weight. -/

/-- `clamp(value, min, max)` from `src/data/synthetic/systems.ts`. -/
noncomputable def clamp (value mn mx : ℝ) : ℝ := max mn (min mx value)

/-- `lerp(start, end, t)` from `src/data/synthetic/systems.ts`. -/
noncomputable def lerp (a b t : ℝ) : ℝ := a + (b - a) * t

/-- `addNoise(value, magnitude)` with its random draw made explicit. -/
noncomputable def addNoise (value magnitude rand : ℝ) : ℝ :=
  clamp (value + (rand - 0.5) * magnitude) 0 1

/-- `PerturbationEvent` from `src/data/synthetic/types`. -/
structure PerturbationEvent where
  day : ℕ
  description : String
  magnitude : ℝ

/-- System α base pentadic profile. -/
noncomputable def alphaBaseProfile : PentadicProfile ℝ :=
  ⟨0.25, 0.20, 0.40, 0.15, 0.85⟩

/-- System α base invariants. -/
noncomputable def alphaBaseInvariants : InvariantProfile ℝ :=
  ⟨0.85, 0.75, 0.80, 0.60, 0.20⟩

/-- System α perturbation events. -/
noncomputable def alphaEvents : List PerturbationEvent :=
  [⟨12, "Minor liquidity stress", 0.3⟩,
   ⟨28, "Validator rotation event", 0.25⟩,
   ⟨45, "External protocol incident", 0.35⟩,
   ⟨67, "Market volatility spike", 0.3⟩,
   ⟨82, "Network congestion", 0.2⟩]

/-- System α per-day perturbation effect: max spike over events inside a
5-day recovery window, `spike = magnitude * exp(-(daysSince/4) * 2)`. -/
noncomputable def perturbEffectAlpha (day : ℕ) : ℝ :=
  alphaEvents.foldl (fun acc e =>
    let ds : ℤ := (day : ℤ) - (e.day : ℤ)
    if 0 ≤ ds ∧ ds < 5 then
      max acc (e.magnitude * Real.exp (-((ds : ℝ) / 4) * 2))
    else acc) 0

/-- System α pentadic profile for one day. -/
noncomputable def generateAlphaPentadic (r : ℕ → ℝ) (day : ℕ) : PentadicProfile ℝ :=
  let pe := perturbEffectAlpha day
  ⟨addNoise (alphaBaseProfile.u + pe * 0.1) 0.02 (r (10 * day)),
   addNoise (alphaBaseProfile.severity + pe * 0.15) 0.02 (r (10 * day + 1)),
   addNoise (alphaBaseProfile.scope + pe * 0.1) 0.02 (r (10 * day + 2)),
   addNoise (alphaBaseProfile.correlation + pe * 0.05) 0.01 (r (10 * day + 3)),
   addNoise (alphaBaseProfile.containment - pe * 0.1) 0.02 (r (10 * day + 4))⟩

/-- System α invariant profile for one day. -/
noncomputable def generateAlphaInvariants (r : ℕ → ℝ) (day : ℕ) : InvariantProfile ℝ :=
  ⟨addNoise alphaBaseInvariants.redundancy 0.02 (r (10 * day + 5)),
   addNoise alphaBaseInvariants.connectivityDensity 0.02 (r (10 * day + 6)),
   addNoise alphaBaseInvariants.feedbackLatency 0.02 (r (10 * day + 7)),
   addNoise alphaBaseInvariants.regenerationRate 0.02 (r (10 * day + 8)),
   addNoise alphaBaseInvariants.dependencyConcentration 0.02 (r (10 * day + 9))⟩

/-- System β start/end pentadic profiles. -/
noncomputable def betaStartProfile : PentadicProfile ℝ := ⟨0.35, 0.40, 0.45, 0.45, 0.55⟩

/-- System β day-90 pentadic profile. -/
noncomputable def betaEndProfile : PentadicProfile ℝ := ⟨0.50, 0.70, 0.65, 0.75, 0.30⟩

/-- System β starting invariants. -/
noncomputable def betaStartInvariants : InvariantProfile ℝ := ⟨0.50, 0.80, 0.55, 0.40, 0.55⟩

/-- System β ending invariants. -/
noncomputable def betaEndInvariants : InvariantProfile ℝ := ⟨0.25, 0.80, 0.30, 0.20, 0.85⟩

/-- System β perturbation events. -/
noncomputable def betaEvents : List PerturbationEvent :=
  [⟨18, "Oracle delay incident", 0.35⟩,
   ⟨38, "Liquidity withdrawal pressure", 0.40⟩,
   ⟨58, "Governance deadlock", 0.45⟩,
   ⟨78, "Cross-protocol contagion", 0.50⟩]

/-- System β non-linear drift: `t*0.6` before day 55, accelerated after. -/
noncomputable def betaDriftT (day : ℕ) : ℝ :=
  let t : ℝ := (day : ℝ) / 89
  if day < 55 then t * 0.6 else 0.6 + (t - 55 / 89) * 1.5

/-- System β perturbation effect: 12-day window, incomplete recovery with
`residual = 1 - recoveryRate` permanent damage. -/
noncomputable def perturbEffectBeta (day : ℕ) : ℝ :=
  betaEvents.foldl (fun acc e =>
    let ds : ℤ := (day : ℤ) - (e.day : ℤ)
    if 0 ≤ ds ∧ ds < 12 then
      let recoveryRate : ℝ := if day < 55 then 0.7 else 0.4
      let residual := 1 - recoveryRate
      max acc (e.magnitude *
        (residual + (1 - residual) * Real.exp (-((ds : ℝ) / 10) * 1.5)))
    else acc) 0

/-- System β pentadic profile for one day. -/
noncomputable def generateBetaPentadic (r : ℕ → ℝ) (day : ℕ) : PentadicProfile ℝ :=
  let driftT := betaDriftT day
  let pe := perturbEffectBeta day
  ⟨clamp (lerp betaStartProfile.u betaEndProfile.u driftT
      + pe * 0.1 + (r (10 * day) - 0.5) * 0.02) 0 1,
   clamp (lerp betaStartProfile.severity betaEndProfile.severity driftT
      + pe * 0.2 + (r (10 * day + 1) - 0.5) * 0.02) 0 1,
   clamp (lerp betaStartProfile.scope betaEndProfile.scope driftT
      + pe * 0.15 + (r (10 * day + 2) - 0.5) * 0.02) 0 1,
   clamp (lerp betaStartProfile.correlation betaEndProfile.correlation driftT
      + pe * 0.1 + (r (10 * day + 3) - 0.5) * 0.02) 0 1,
   clamp (lerp betaStartProfile.containment betaEndProfile.containment driftT
      - pe * 0.15 + (r (10 * day + 4) - 0.5) * 0.02) 0 1⟩

/-- System β invariant profile for one day (connectivityDensity stays at
its starting level, no drift). -/
noncomputable def generateBetaInvariants (r : ℕ → ℝ) (day : ℕ) : InvariantProfile ℝ :=
  let driftT := betaDriftT day
  ⟨clamp (lerp betaStartInvariants.redundancy betaEndInvariants.redundancy driftT
      + (r (10 * day + 5) - 0.5) * 0.02) 0 1,
   clamp (betaStartInvariants.connectivityDensity + (r (10 * day + 6) - 0.5) * 0.02) 0 1,
   clamp (lerp betaStartInvariants.feedbackLatency betaEndInvariants.feedbackLatency driftT
      + (r (10 * day + 7) - 0.5) * 0.02) 0 1,
   clamp (lerp betaStartInvariants.regenerationRate betaEndInvariants.regenerationRate driftT
      + (r (10 * day + 8) - 0.5) * 0.02) 0 1,
   clamp (lerp betaStartInvariants.dependencyConcentration
        betaEndInvariants.dependencyConcentration driftT
      + (r (10 * day + 9) - 0.5) * 0.02) 0 1⟩

/-- System γ pre-crisis pentadic baseline. -/
noncomputable def gammaPrecrisisProfile : PentadicProfile ℝ := ⟨0.40, 0.35, 0.35, 0.35, 0.65⟩

/-- System γ crisis-peak pentadic profile (day 15). -/
noncomputable def gammaCrisisProfile : PentadicProfile ℝ := ⟨0.75, 0.85, 0.70, 0.70, 0.25⟩

/-- System γ recovered pentadic profile (day 90). -/
noncomputable def gammaRecoveredProfile : PentadicProfile ℝ := ⟨0.55, 0.50, 0.30, 0.45, 0.55⟩

/-- System γ pre-crisis invariants. -/
noncomputable def gammaPrecrisisInvariants : InvariantProfile ℝ := ⟨0.55, 0.60, 0.50, 0.45, 0.50⟩

/-- System γ crisis invariants. -/
noncomputable def gammaCrisisInvariants : InvariantProfile ℝ := ⟨0.20, 0.30, 0.25, 0.75, 0.70⟩

/-- System γ recovered invariants. -/
noncomputable def gammaRecoveredInvariants : InvariantProfile ℝ := ⟨0.50, 0.45, 0.55, 0.75, 0.50⟩

/-- System γ perturbation events (the major crisis plus two smaller). -/
noncomputable def gammaEvents : List PerturbationEvent :=
  [⟨15, "Major exploit and liquidity drain", 0.85⟩,
   ⟨42, "Secondary market stress", 0.35⟩,
   ⟨68, "Governance challenge", 0.25⟩]

/-- System γ secondary perturbation effect (events after the crisis,
6-day window, `spike = magnitude * exp(-(daysSince/4) * 2.5)`). -/
noncomputable def perturbEffectGamma (day : ℕ) : ℝ :=
  (gammaEvents.drop 1).foldl (fun acc e =>
    let ds : ℤ := (day : ℤ) - (e.day : ℤ)
    if 0 ≤ ds ∧ ds < 6 then
      max acc (e.magnitude * Real.exp (-((ds : ℝ) / 4) * 2.5))
    else acc) 0

/-- System γ smooth recovery fraction
`1 - exp(-((day - 15) / 74) * 3)` for the post-crisis phase. -/
noncomputable def gammaRecoveryT (day : ℕ) : ℝ :=
  1 - Real.exp (-(((day : ℝ) - 15) / 74) * 3)

/-- System γ pentadic profile for one day (pre-crisis drift, crisis
constants at day 15, clamped recovery interpolation after). -/
noncomputable def generateGammaPentadic (r : ℕ → ℝ) (day : ℕ) : PentadicProfile ℝ :=
  if day < 15 then
    let t : ℝ := (day : ℝ) / 14
    ⟨addNoise (lerp gammaPrecrisisProfile.u (gammaPrecrisisProfile.u + 0.1) t)
        0.02 (r (10 * day)),
     addNoise (lerp gammaPrecrisisProfile.severity (gammaPrecrisisProfile.severity + 0.05) t)
        0.02 (r (10 * day + 1)),
     addNoise gammaPrecrisisProfile.scope 0.02 (r (10 * day + 2)),
     addNoise (lerp gammaPrecrisisProfile.correlation (gammaPrecrisisProfile.correlation + 0.1) t)
        0.02 (r (10 * day + 3)),
     addNoise gammaPrecrisisProfile.containment 0.02 (r (10 * day + 4))⟩
  else if day = 15 then gammaCrisisProfile
  else
    let pe := perturbEffectGamma day
    let recoveryT := gammaRecoveryT day
    ⟨clamp (lerp gammaCrisisProfile.u gammaRecoveredProfile.u recoveryT
        + pe * 0.1 + (r (10 * day) - 0.5) * 0.02) 0 1,
     clamp (lerp gammaCrisisProfile.severity gammaRecoveredProfile.severity recoveryT
        + pe * 0.15 + (r (10 * day + 1) - 0.5) * 0.02) 0 1,
     clamp (lerp gammaCrisisProfile.scope gammaRecoveredProfile.scope recoveryT
        + pe * 0.1 + (r (10 * day + 2) - 0.5) * 0.02) 0 1,
     clamp (lerp gammaCrisisProfile.correlation gammaRecoveredProfile.correlation recoveryT
        + pe * 0.05 + (r (10 * day + 3) - 0.5) * 0.02) 0 1,
     clamp (lerp gammaCrisisProfile.containment gammaRecoveredProfile.containment recoveryT
        - pe * 0.1 + (r (10 * day + 4) - 0.5) * 0.02) 0 1⟩

/-- System γ invariant profile for one day (regenerationRate stays at the
recovered level after the crisis, no interpolation). -/
noncomputable def generateGammaInvariants (r : ℕ → ℝ) (day : ℕ) : InvariantProfile ℝ :=
  if day < 15 then
    ⟨addNoise gammaPrecrisisInvariants.redundancy 0.02 (r (10 * day + 5)),
     addNoise gammaPrecrisisInvariants.connectivityDensity 0.02 (r (10 * day + 6)),
     addNoise gammaPrecrisisInvariants.feedbackLatency 0.02 (r (10 * day + 7)),
     addNoise gammaPrecrisisInvariants.regenerationRate 0.02 (r (10 * day + 8)),
     addNoise gammaPrecrisisInvariants.dependencyConcentration 0.02 (r (10 * day + 9))⟩
  else if day = 15 then gammaCrisisInvariants
  else
    let recoveryT := gammaRecoveryT day
    ⟨clamp (lerp gammaCrisisInvariants.redundancy gammaRecoveredInvariants.redundancy recoveryT
        + (r (10 * day + 5) - 0.5) * 0.02) 0 1,
     clamp (lerp gammaCrisisInvariants.connectivityDensity
          gammaRecoveredInvariants.connectivityDensity recoveryT
        + (r (10 * day + 6) - 0.5) * 0.02) 0 1,
     clamp (lerp gammaCrisisInvariants.feedbackLatency
          gammaRecoveredInvariants.feedbackLatency recoveryT
        + (r (10 * day + 7) - 0.5) * 0.02) 0 1,
     clamp (gammaRecoveredInvariants.regenerationRate + (r (10 * day + 8) - 0.5) * 0.02) 0 1,
     clamp (lerp gammaCrisisInvariants.dependencyConcentration
          gammaRecoveredInvariants.dependencyConcentration recoveryT
        + (r (10 * day + 9) - 0.5) * 0.02) 0 1⟩

/-- The 90-day pentadic series of system α. -/
noncomputable def pentadicSeriesAlpha (r : ℕ → ℝ) : List (PentadicProfile ℝ) :=
  (List.range 90).map (generateAlphaPentadic r)

/-- The 90-day invariant series of system α. -/
noncomputable def invariantSeriesAlpha (r : ℕ → ℝ) : List (InvariantProfile ℝ) :=
  (List.range 90).map (generateAlphaInvariants r)

/-- The 90-day pentadic series of system β. -/
noncomputable def pentadicSeriesBeta (r : ℕ → ℝ) : List (PentadicProfile ℝ) :=
  (List.range 90).map (generateBetaPentadic r)

/-- The 90-day invariant series of system β. -/
noncomputable def invariantSeriesBeta (r : ℕ → ℝ) : List (InvariantProfile ℝ) :=
  (List.range 90).map (generateBetaInvariants r)

/-- The 90-day pentadic series of system γ. -/
noncomputable def pentadicSeriesGamma (r : ℕ → ℝ) : List (PentadicProfile ℝ) :=
  (List.range 90).map (generateGammaPentadic r)

/-- The 90-day invariant series of system γ. -/
noncomputable def invariantSeriesGamma (r : ℕ → ℝ) : List (InvariantProfile ℝ) :=
  (List.range 90).map (generateGammaInvariants r)

/-- `x` lies in the closed real unit interval. -/
def UnitRange (x : ℝ) : Prop := 0 ≤ x ∧ x ≤ 1

/-- All five pentadic fields lie in [0,1]. -/
def PentadicInUnit (p : PentadicProfile ℝ) : Prop :=
  UnitRange p.u ∧ UnitRange p.severity ∧ UnitRange p.scope ∧
    UnitRange p.correlation ∧ UnitRange p.containment

/-- All five invariant fields lie in [0,1]. -/
def InvariantInUnit (q : InvariantProfile ℝ) : Prop :=
  UnitRange q.redundancy ∧ UnitRange q.connectivityDensity ∧
    UnitRange q.feedbackLatency ∧ UnitRange q.regenerationRate ∧
    UnitRange q.dependencyConcentration

/-- Clamping to [0,1] always lands in [0,1]. -/
theorem clamp01_unitRange (v : ℝ) : UnitRange (clamp v 0 1) :=
  ⟨le_max_left 0 (min 1 v), max_le zero_le_one (min_le_left 1 v)⟩

/-- `addNoise` always lands in [0,1]. -/
theorem addNoise_unitRange (v m rand : ℝ) : UnitRange (addNoise v m rand) :=
  clamp01_unitRange _

/-- Every day of system α's pentadic series is in the unit cube. -/
theorem generateAlphaPentadic_inUnit (r : ℕ → ℝ) (day : ℕ) :
    PentadicInUnit (generateAlphaPentadic r day) :=
  ⟨addNoise_unitRange _ _ _, addNoise_unitRange _ _ _, addNoise_unitRange _ _ _,
   addNoise_unitRange _ _ _, addNoise_unitRange _ _ _⟩

/-- Every day of system α's invariant series is in the unit cube. -/
theorem generateAlphaInvariants_inUnit (r : ℕ → ℝ) (day : ℕ) :
    InvariantInUnit (generateAlphaInvariants r day) :=
  ⟨addNoise_unitRange _ _ _, addNoise_unitRange _ _ _, addNoise_unitRange _ _ _,
   addNoise_unitRange _ _ _, addNoise_unitRange _ _ _⟩

/-- Every day of system β's pentadic series is in the unit cube. -/
theorem generateBetaPentadic_inUnit (r : ℕ → ℝ) (day : ℕ) :
    PentadicInUnit (generateBetaPentadic r day) :=
  ⟨clamp01_unitRange _, clamp01_unitRange _, clamp01_unitRange _,
   clamp01_unitRange _, clamp01_unitRange _⟩

/-- Every day of system β's invariant series is in the unit cube. -/
theorem generateBetaInvariants_inUnit (r : ℕ → ℝ) (day : ℕ) :
    InvariantInUnit (generateBetaInvariants r day) :=
  ⟨clamp01_unitRange _, clamp01_unitRange _, clamp01_unitRange _,
   clamp01_unitRange _, clamp01_unitRange _⟩

/-- Every day of system γ's pentadic series is in the unit cube (the
crisis-day constants included). -/
theorem generateGammaPentadic_inUnit (r : ℕ → ℝ) (day : ℕ) :
    PentadicInUnit (generateGammaPentadic r day) := by
  unfold generateGammaPentadic
  split
  · exact ⟨addNoise_unitRange _ _ _, addNoise_unitRange _ _ _, addNoise_unitRange _ _ _,
      addNoise_unitRange _ _ _, addNoise_unitRange _ _ _⟩
  · split
    · refine ⟨⟨?_, ?_⟩, ⟨?_, ?_⟩, ⟨?_, ?_⟩, ⟨?_, ?_⟩, ⟨?_, ?_⟩⟩ <;>
        norm_num [gammaCrisisProfile]
    · exact ⟨clamp01_unitRange _, clamp01_unitRange _, clamp01_unitRange _,
        clamp01_unitRange _, clamp01_unitRange _⟩

/-- Every day of system γ's invariant series is in the unit cube. -/
theorem generateGammaInvariants_inUnit (r : ℕ → ℝ) (day : ℕ) :
    InvariantInUnit (generateGammaInvariants r day) := by
  unfold generateGammaInvariants
  split
  · exact ⟨addNoise_unitRange _ _ _, addNoise_unitRange _ _ _, addNoise_unitRange _ _ _,
      addNoise_unitRange _ _ _, addNoise_unitRange _ _ _⟩
  · split
    · refine ⟨⟨?_, ?_⟩, ⟨?_, ?_⟩, ⟨?_, ?_⟩, ⟨?_, ?_⟩, ⟨?_, ?_⟩⟩ <;>
        norm_num [gammaCrisisInvariants]
    · exact ⟨clamp01_unitRange _, clamp01_unitRange _, clamp01_unitRange _,
        clamp01_unitRange _, clamp01_unitRange _⟩

/-- C9: for every sequence of random draws, every profile in the 90-day
pentadic and invariant series of the three system generators has all five
fields in [0,1]. -/
theorem generated_series_in_unit_interval (r : ℕ → ℝ) :
    (∀ p ∈ pentadicSeriesAlpha r, PentadicInUnit p) ∧
    (∀ q ∈ invariantSeriesAlpha r, InvariantInUnit q) ∧
    (∀ p ∈ pentadicSeriesBeta r, PentadicInUnit p) ∧
    (∀ q ∈ invariantSeriesBeta r, InvariantInUnit q) ∧
    (∀ p ∈ pentadicSeriesGamma r, PentadicInUnit p) ∧
    (∀ q ∈ invariantSeriesGamma r, InvariantInUnit q) := by
  refine ⟨?_, ?_, ?_, ?_, ?_, ?_⟩ <;> intro x hx <;>
    simp only [pentadicSeriesAlpha, invariantSeriesAlpha, pentadicSeriesBeta,
      invariantSeriesBeta, pentadicSeriesGamma, invariantSeriesGamma,
      List.mem_map, List.mem_range] at hx <;> obtain ⟨d, -, rfl⟩ := hx
  · exact generateAlphaPentadic_inUnit r d
  · exact generateAlphaInvariants_inUnit r d
  · exact generateBetaPentadic_inUnit r d
  · exact generateBetaInvariants_inUnit r d
  · exact generateGammaPentadic_inUnit r d
  · exact generateGammaInvariants_inUnit r d

/-- Witness for C9 at a concrete stream and list element. -/
theorem generated_series_in_unit_interval_witness :
    PentadicInUnit (generateAlphaPentadic (fun _ => 0.5) 0) :=
  (generated_series_in_unit_interval (fun _ => 0.5)).1
    (generateAlphaPentadic (fun _ => 0.5) 0)
    (by
      unfold pentadicSeriesAlpha
      exact List.mem_map_of_mem _ (List.mem_range.mpr (by norm_num)))

end L1Viz
